import Mathlib

/-!
# Water Stress Scoring Engine — formal model

A shallow embedding over the real numbers of the scoring functions of
`live-water-monitor.js`: the composite water-stress index
(`calculateWaterStressIndex`) and the severity mapping (`getSeverityLevel`),
together with a reference formulation transcribed from the specification
text, and theorems relating and characterising them.
-/

namespace WaterMonitor

/-- Potential evapotranspiration, from `calculateWaterStressIndex`:
`0.0023 * (temperature + 17.8) * Math.sqrt(Math.abs(25 - temperature)) * 5`. -/
noncomputable def potentialEvapotranspiration (temperature : ℝ) : ℝ :=
  0.0023 * (temperature + 17.8) * Real.sqrt |25 - temperature| * 5

/-- The aridity component of the composite index (weight 40):
`aridityIndex = precipitation > 0 ? precipitation / PET : 0`, then the
ascending-threshold ladder `< 0.05 → 40`, `< 0.2 → 30`, `< 0.5 → 20`,
`< 0.65 → 10`, otherwise `0`.

In JavaScript, when `precipitation > 0` and the PET denominator is zero the
quotient is `+Infinity`, which fails every `< threshold` comparison, so the
component is `0`.  Real-number division in this development returns `0` at a
zero denominator, so that case is made explicit as the first branch. -/
noncomputable def aridityComponent (precipitation temperature : ℝ) : ℝ :=
  if precipitation > 0 ∧ potentialEvapotranspiration temperature = 0 then 0
  else
    let aridityIndex :=
      if precipitation > 0 then precipitation / potentialEvapotranspiration temperature else 0
    if aridityIndex < 0.05 then 40
    else if aridityIndex < 0.2 then 30
    else if aridityIndex < 0.5 then 20
    else if aridityIndex < 0.65 then 10
    else 0

/-- The per-capita water component of the composite index (weight 30):
`areaKm2 = (population * 10) ^ 0.5`, `waterAvailable = precipitation * areaKm2 * 1000`,
`perCapitaWater = waterAvailable / (population * 1000000)`, then the
ascending-threshold ladder `< 500 → 30`, `< 1000 → 20`, `< 1700 → 10`,
otherwise `0`. -/
noncomputable def perCapitaComponent (precipitation population : ℝ) : ℝ :=
  let areaKm2 := Real.sqrt (population * 10)
  let waterAvailable := precipitation * areaKm2 * 1000
  let perCapitaWater := waterAvailable / (population * 1000000)
  if perCapitaWater < 500 then 30
  else if perCapitaWater < 1000 then 20
  else if perCapitaWater < 1700 then 10
  else 0

/-- Temperature stress, from `calculateWaterStressIndex`:
`Math.max(0, Math.min(100, (temperature - 15) * 3))`. -/
noncomputable def tempStress (temperature : ℝ) : ℝ :=
  max 0 (min 100 ((temperature - 15) * 3))

/-- Humidity factor, from `calculateWaterStressIndex`:
`Math.max(0, Math.min(100, (60 - humidity) * 2))`. -/
noncomputable def humidityFactor (humidity : ℝ) : ℝ :=
  max 0 (min 100 ((60 - humidity) * 2))

/-- The composite water stress index of `calculateWaterStressIndex`: the four
weighted components accumulated into `stressIndex`, and the final
`Math.min(100, Math.max(0, stressIndex))`. -/
noncomputable def calculateWaterStressIndex
    (precipitation temperature humidity population : ℝ) : ℝ :=
  let stressIndex :=
    aridityComponent precipitation temperature
    + perCapitaComponent precipitation population
    + tempStress temperature * 0.2
    + humidityFactor humidity * 0.1
  min 100 (max 0 stressIndex)

/-- The sum of the four weighted components before the final clamp: the body
of `calculateWaterStressIndex` with the last line's
`Math.min(100, Math.max(0, ·))` removed. -/
noncomputable def unclampedStressIndex
    (precipitation temperature humidity population : ℝ) : ℝ :=
  aridityComponent precipitation temperature
  + perCapitaComponent precipitation population
  + tempStress temperature * 0.2
  + humidityFactor humidity * 0.1

/-- The five severity levels returned by `getSeverityLevel`. -/
inductive SeverityLevel where
  | critical
  | severe
  | warning
  | moderate
  | low
deriving DecidableEq, Repr

/-- The result object of `getSeverityLevel`: a level and a display colour. -/
structure Severity where
  level : SeverityLevel
  color : String
deriving DecidableEq, Repr

/-- The severity mapping `getSeverityLevel`, guard for guard. -/
noncomputable def getSeverityLevel (stressIndex : ℝ) : Severity :=
  if stressIndex ≥ 80 then ⟨.critical, "#ff0040"⟩
  else if stressIndex ≥ 60 then ⟨.severe, "#ff6b35"⟩
  else if stressIndex ≥ 40 then ⟨.warning, "#ffa500"⟩
  else if stressIndex ≥ 20 then ⟨.moderate, "#ffdd00"⟩
  else ⟨.low, "#00d084"⟩

/-- The specification's clamp: `clamp(x, lo, hi)`. -/
noncomputable def specClamp (x lo hi : ℝ) : ℝ := max lo (min hi x)

/-- Reference stress index transcribed from the specification's algorithm
(section 4.1): the aridity ladder on `AI = precipitation / PET` (with
`AI = 0` when precipitation is not positive, and the edge-case clause that a
zero PET with positive precipitation counts as a very large ratio, at the wet
end, contribution 0), the per-capita ladder on
`waterVolume / (populationMillions * 1000000)`, the continuous temperature
and humidity terms `clamp((T - 15) * 3, 0, 100) * 0.2` and
`clamp((60 - H) * 2, 0, 100) * 0.1`, summed and clamped to `[0, 100]`. -/
noncomputable def specStressIndex
    (precipitation temperature humidity population : ℝ) : ℝ :=
  let PET := 0.0023 * (temperature + 17.8) * Real.sqrt |25 - temperature| * 5
  let AI := if precipitation > 0 then precipitation / PET else 0
  let aridityContribution :=
    if precipitation > 0 ∧ PET = 0 then 0
    else if AI < 0.05 then 40
    else if AI < 0.2 then 30
    else if AI < 0.5 then 20
    else if AI < 0.65 then 10
    else 0
  let areaKm2 := Real.sqrt (population * 10)
  let waterVolume := precipitation * areaKm2 * 1000
  let perCapita := waterVolume / (population * 1000000)
  let perCapitaContribution :=
    if perCapita < 500 then 30
    else if perCapita < 1000 then 20
    else if perCapita < 1700 then 10
    else 0
  let temperatureContribution := specClamp ((temperature - 15) * 3) 0 100 * 0.2
  let humidityContribution := specClamp ((60 - humidity) * 2) 0 100 * 0.1
  specClamp (aridityContribution + perCapitaContribution
    + temperatureContribution + humidityContribution) 0 100

lemma aridityComponent_nonneg (p t : ℝ) : 0 ≤ aridityComponent p t := by
  simp only [aridityComponent]
  split_ifs <;> norm_num

lemma aridityComponent_le (p t : ℝ) : aridityComponent p t ≤ 40 := by
  simp only [aridityComponent]
  split_ifs <;> norm_num

lemma perCapitaComponent_nonneg (p pop : ℝ) : 0 ≤ perCapitaComponent p pop := by
  simp only [perCapitaComponent]
  split_ifs <;> norm_num

lemma perCapitaComponent_le (p pop : ℝ) : perCapitaComponent p pop ≤ 30 := by
  simp only [perCapitaComponent]
  split_ifs <;> norm_num

lemma tempStress_nonneg (t : ℝ) : 0 ≤ tempStress t := le_max_left 0 _

lemma tempStress_le (t : ℝ) : tempStress t ≤ 100 :=
  max_le (by norm_num) (min_le_left _ _)

lemma humidityFactor_nonneg (h : ℝ) : 0 ≤ humidityFactor h := le_max_left 0 _

lemma humidityFactor_le (h : ℝ) : humidityFactor h ≤ 100 :=
  max_le (by norm_num) (min_le_left _ _)

lemma unclampedStressIndex_nonneg (p t h pop : ℝ) :
    0 ≤ unclampedStressIndex p t h pop := by
  have h1 := aridityComponent_nonneg p t
  have h2 := perCapitaComponent_nonneg p pop
  have h3 := tempStress_nonneg t
  have h4 := humidityFactor_nonneg h
  unfold unclampedStressIndex
  nlinarith

lemma unclampedStressIndex_le (p t h pop : ℝ) :
    unclampedStressIndex p t h pop ≤ 100 := by
  have h1 := aridityComponent_le p t
  have h2 := perCapitaComponent_le p pop
  have h3 := tempStress_le t
  have h4 := humidityFactor_le h
  unfold unclampedStressIndex
  nlinarith

lemma calculateWaterStressIndex_eq_unclamped (p t h pop : ℝ) :
    calculateWaterStressIndex p t h pop = unclampedStressIndex p t h pop := by
  show min 100 (max 0 (unclampedStressIndex p t h pop)) = _
  rw [max_eq_right (unclampedStressIndex_nonneg p t h pop),
    min_eq_right (unclampedStressIndex_le p t h pop)]

/-- C2: for every precipitation ≥ 0, every temperature, every humidity in
[0, 100] and every population > 0, the index returned by
`calculateWaterStressIndex` lies in [0, 100]. -/
theorem calculateWaterStressIndex_mem_Icc
    (p t h pop : ℝ) (hp : 0 ≤ p) (hh0 : 0 ≤ h) (hh1 : h ≤ 100) (hpop : 0 < pop) :
    0 ≤ calculateWaterStressIndex p t h pop ∧
      calculateWaterStressIndex p t h pop ≤ 100 := by
  rw [calculateWaterStressIndex_eq_unclamped]
  exact ⟨unclampedStressIndex_nonneg p t h pop, unclampedStressIndex_le p t h pop⟩

/-- Witness for C2 at precipitation 0, temperature 40, humidity 10,
population 10. -/
theorem calculateWaterStressIndex_mem_Icc_witness :
    0 ≤ calculateWaterStressIndex 0 40 10 10 ∧
      calculateWaterStressIndex 0 40 10 10 ≤ 100 :=
  calculateWaterStressIndex_mem_Icc 0 40 10 10 (by norm_num) (by norm_num)
    (by norm_num) (by norm_num)

/-- C9: the unclamped sum of the four contributions already lies in
[0, 100] — each component is individually bounded below by 0 and above by
its weight — so the final `Math.min(100, Math.max(0, stressIndex))` is the
identity and `calculateWaterStressIndex` equals the same function with the
final clamp removed. -/
theorem calculateWaterStressIndex_clamp_identity
    (p t h pop : ℝ) (hpop : 0 < pop) :
    0 ≤ unclampedStressIndex p t h pop ∧
      unclampedStressIndex p t h pop ≤ 100 ∧
      calculateWaterStressIndex p t h pop = unclampedStressIndex p t h pop :=
  ⟨unclampedStressIndex_nonneg p t h pop, unclampedStressIndex_le p t h pop,
    calculateWaterStressIndex_eq_unclamped p t h pop⟩

/-- Witness for C9 at precipitation 1, temperature 20, humidity 50,
population 1. -/
theorem calculateWaterStressIndex_clamp_identity_witness :
    0 ≤ unclampedStressIndex 1 20 50 1 ∧
      unclampedStressIndex 1 20 50 1 ≤ 100 ∧
      calculateWaterStressIndex 1 20 50 1 = unclampedStressIndex 1 20 50 1 :=
  calculateWaterStressIndex_clamp_identity 1 20 50 1 (by norm_num)

lemma min_max_clamp (s : ℝ) : min 100 (max 0 s) = max 0 (min 100 s) := by
  rw [max_min_distrib_left, show max (0:ℝ) 100 = 100 from max_eq_right (by norm_num)]

/-- C1: for every precipitation ≥ 0, every temperature, every humidity in
[0, 100] and every population > 0, `calculateWaterStressIndex` equals the
specification's reference formula: the discrete aridity ladder on
precipitation / PET, the discrete per-capita ladder, the continuous clamped
temperature and humidity terms, summed and clamped to [0, 100]. -/
theorem calculateWaterStressIndex_eq_spec
    (p t h pop : ℝ) (hp : 0 ≤ p) (hh0 : 0 ≤ h) (hh1 : h ≤ 100) (hpop : 0 < pop) :
    calculateWaterStressIndex p t h pop = specStressIndex p t h pop := by
  show min 100 (max 0 (unclampedStressIndex p t h pop)) = specStressIndex p t h pop
  rw [min_max_clamp]
  rfl

/-- Witness for C1 at precipitation 1, temperature 30, humidity 50,
population 2. -/
theorem calculateWaterStressIndex_eq_spec_witness :
    calculateWaterStressIndex 1 30 50 2 = specStressIndex 1 30 50 2 :=
  calculateWaterStressIndex_eq_spec 1 30 50 2 (by norm_num) (by norm_num)
    (by norm_num) (by norm_num)

/-- C3: `getSeverityLevel` is a total, deterministic, non-overlapping
partition of [0, 100]: an index maps to `critical` exactly when it is ≥ 80,
to `severe` exactly on [60, 80), to `warning` exactly on [40, 60), to
`moderate` exactly on [20, 40) and to `low` exactly below 20, so each
boundary value 80, 60, 40, 20 falls in the higher category. -/
theorem getSeverityLevel_partition (x : ℝ) (h0 : 0 ≤ x) (h1 : x ≤ 100) :
    ((getSeverityLevel x).level = SeverityLevel.critical ↔ 80 ≤ x) ∧
    ((getSeverityLevel x).level = SeverityLevel.severe ↔ 60 ≤ x ∧ x < 80) ∧
    ((getSeverityLevel x).level = SeverityLevel.warning ↔ 40 ≤ x ∧ x < 60) ∧
    ((getSeverityLevel x).level = SeverityLevel.moderate ↔ 20 ≤ x ∧ x < 40) ∧
    ((getSeverityLevel x).level = SeverityLevel.low ↔ x < 20) := by
  unfold getSeverityLevel
  split_ifs with g1 g2 g3 g4 <;>
    refine ⟨?_, ?_, ?_, ?_, ?_⟩ <;>
      first
        | exact iff_of_true rfl (by constructor <;> linarith)
        | exact iff_of_true rfl (by linarith)
        | exact iff_of_false (by decide) (by rintro ⟨a, b⟩; linarith)
        | exact iff_of_false (by decide) (by intro a; linarith)

/-- Witness for C3 at the boundary index 80. -/
theorem getSeverityLevel_partition_witness :
    ((getSeverityLevel 80).level = SeverityLevel.critical ↔ 80 ≤ (80:ℝ)) ∧
    ((getSeverityLevel 80).level = SeverityLevel.severe ↔ 60 ≤ (80:ℝ) ∧ (80:ℝ) < 80) ∧
    ((getSeverityLevel 80).level = SeverityLevel.warning ↔ 40 ≤ (80:ℝ) ∧ (80:ℝ) < 60) ∧
    ((getSeverityLevel 80).level = SeverityLevel.moderate ↔ 20 ≤ (80:ℝ) ∧ (80:ℝ) < 40) ∧
    ((getSeverityLevel 80).level = SeverityLevel.low ↔ (80:ℝ) < 20) :=
  getSeverityLevel_partition 80 (by norm_num) (by norm_num)

/-- C4: at temperature exactly 25 the PET denominator is 0 and, for any
positive precipitation, the aridity ratio is at the wet end: the aridity
component is 0 and the index is the finite real value obtained by clamping
the sum of the three remaining contributions. -/
theorem calculateWaterStressIndex_at_temp25 (p h pop : ℝ) (hp : 0 < p) :
    potentialEvapotranspiration 25 = 0 ∧
    aridityComponent p 25 = 0 ∧
    calculateWaterStressIndex p 25 h pop =
      min 100 (max 0 (perCapitaComponent p pop
        + tempStress 25 * 0.2 + humidityFactor h * 0.1)) := by
  have hpet : potentialEvapotranspiration 25 = 0 := by
    unfold potentialEvapotranspiration
    rw [show |(25:ℝ) - 25| = 0 by norm_num, Real.sqrt_zero]
    ring
  have har : aridityComponent p 25 = 0 := by
    unfold aridityComponent
    rw [if_pos ⟨hp, hpet⟩]
  refine ⟨hpet, har, ?_⟩
  show min 100 (max 0 (aridityComponent p 25 + perCapitaComponent p pop
    + tempStress 25 * 0.2 + humidityFactor h * 0.1)) = _
  rw [har, zero_add]

/-- Witness for C4 at precipitation 1, humidity 50, population 2. -/
theorem calculateWaterStressIndex_at_temp25_witness :
    potentialEvapotranspiration 25 = 0 ∧
    aridityComponent 1 25 = 0 ∧
    calculateWaterStressIndex 1 25 50 2 =
      min 100 (max 0 (perCapitaComponent 1 2
        + tempStress 25 * 0.2 + humidityFactor 50 * 0.1)) :=
  calculateWaterStressIndex_at_temp25 1 50 2 (by norm_num)

/-- C5: for precipitation ≤ 0 the aridity ratio is forced to 0, so the
aridity component contributes exactly its maximum of 40 to the index,
regardless of temperature, humidity and population. -/
theorem aridityComponent_of_nonpos_precipitation
    (p t h pop : ℝ) (hp : p ≤ 0) :
    aridityComponent p t = 40 ∧
    calculateWaterStressIndex p t h pop =
      min 100 (max 0 (40 + perCapitaComponent p pop
        + tempStress t * 0.2 + humidityFactor h * 0.1)) := by
  have hnp : ¬ p > 0 := not_lt.mpr hp
  have har : aridityComponent p t = 40 := by
    simp only [aridityComponent, hnp]
    norm_num
  refine ⟨har, ?_⟩
  show min 100 (max 0 (aridityComponent p t + perCapitaComponent p pop
    + tempStress t * 0.2 + humidityFactor h * 0.1)) = _
  rw [har]

/-- Witness for C5 at precipitation 0, temperature 30, humidity 50,
population 5. -/
theorem aridityComponent_of_nonpos_precipitation_witness :
    aridityComponent 0 30 = 40 ∧
    calculateWaterStressIndex 0 30 50 5 =
      min 100 (max 0 (40 + perCapitaComponent 0 5
        + tempStress 30 * 0.2 + humidityFactor 50 * 0.1)) :=
  aridityComponent_of_nonpos_precipitation 0 30 50 5 (by norm_num)

lemma stressIndex_scenario1 : calculateWaterStressIndex 0 40 10 10 = 95 := by
  have har : aridityComponent 0 40 = 40 := by
    simp only [aridityComponent]
    norm_num
  have hpc : perCapitaComponent 0 10 = 30 := by
    simp only [perCapitaComponent]
    norm_num
  have ht : tempStress 40 = 75 := by
    unfold tempStress
    norm_num [min_def, max_def]
  have hh : humidityFactor 10 = 100 := by
    unfold humidityFactor
    norm_num [min_def, max_def]
  show min 100 (max 0 (aridityComponent 0 40 + perCapitaComponent 0 10
    + tempStress 40 * 0.2 + humidityFactor 10 * 0.1)) = 95
  rw [har, hpc, ht, hh]
  norm_num [min_def, max_def]

/-- C6: for precipitation 0, temperature 40, humidity 10 and population 10,
`calculateWaterStressIndex` returns exactly 95 (aridity 40, per-capita 30,
temperature 15, humidity 10) and `getSeverityLevel` maps that index to
`critical`. -/
theorem scenario1_index_and_severity :
    calculateWaterStressIndex 0 40 10 10 = 95 ∧
    (getSeverityLevel (calculateWaterStressIndex 0 40 10 10)).level
      = SeverityLevel.critical := by
  refine ⟨stressIndex_scenario1, ?_⟩
  rw [stressIndex_scenario1]
  unfold getSeverityLevel
  rw [if_pos (by norm_num : (95:ℝ) ≥ 80)]

lemma sqrt_five_le : Real.sqrt 5 ≤ 3 := by
  rw [show (3:ℝ) = Real.sqrt 9 by
    rw [show (9:ℝ) = 3 ^ 2 by norm_num, Real.sqrt_sq (by norm_num : (0:ℝ) ≤ 3)]]
  exact Real.sqrt_le_sqrt (by norm_num)

lemma sqrt_fifty_le : Real.sqrt 50 ≤ 8 := by
  rw [show (8:ℝ) = Real.sqrt 64 by
    rw [show (64:ℝ) = 8 ^ 2 by norm_num, Real.sqrt_sq (by norm_num : (0:ℝ) ≤ 8)]]
  exact Real.sqrt_le_sqrt (by norm_num)

lemma pet_twenty_pos : 0 < potentialEvapotranspiration 20 := by
  unfold potentialEvapotranspiration
  rw [show |25 - (20:ℝ)| = 5 by norm_num]
  have h5 : 0 < Real.sqrt 5 := Real.sqrt_pos.mpr (by norm_num)
  nlinarith

lemma pet_twenty_le : potentialEvapotranspiration 20 ≤ 2 := by
  unfold potentialEvapotranspiration
  rw [show |25 - (20:ℝ)| = 5 by norm_num]
  nlinarith [sqrt_five_le, Real.sqrt_nonneg (5:ℝ)]

lemma aridity_scenario2 : aridityComponent 50 20 = 0 := by
  have hratio : (0.65:ℝ) ≤ 50 / potentialEvapotranspiration 20 := by
    rw [le_div_iff₀ pet_twenty_pos]
    nlinarith [pet_twenty_le]
  simp only [aridityComponent]
  rw [if_neg (fun hc => absurd hc.2 (ne_of_gt pet_twenty_pos)),
    if_pos (by norm_num : (50:ℝ) > 0),
    if_neg (not_lt.mpr (by linarith)), if_neg (not_lt.mpr (by linarith)),
    if_neg (not_lt.mpr (by linarith)), if_neg (not_lt.mpr (by linarith))]

lemma perCapita_scenario2 : perCapitaComponent 50 5 = 30 := by
  simp only [perCapitaComponent]
  rw [if_pos]
  rw [show (5:ℝ) * 10 = 50 by norm_num,
    div_lt_iff₀ (by norm_num : (0:ℝ) < 5 * 1000000)]
  nlinarith [sqrt_fifty_le, Real.sqrt_nonneg (50:ℝ)]

lemma stressIndex_scenario2 : calculateWaterStressIndex 50 20 70 5 = 33 := by
  have ht : tempStress 20 = 15 := by
    unfold tempStress
    norm_num [min_def, max_def]
  have hh : humidityFactor 70 = 0 := by
    unfold humidityFactor
    norm_num [min_def, max_def]
  show min 100 (max 0 (aridityComponent 50 20 + perCapitaComponent 50 5
    + tempStress 20 * 0.2 + humidityFactor 70 * 0.1)) = 33
  rw [aridity_scenario2, perCapita_scenario2, ht, hh]
  norm_num [min_def, max_def]

/-- C7: for precipitation 50, temperature 20, humidity 70 and population 5,
the index returned by `calculateWaterStressIndex` (exactly 33) is strictly
below 40, so its severity level is `moderate` or `low`. -/
theorem scenario2_index_below_forty :
    calculateWaterStressIndex 50 20 70 5 < 40 ∧
    ((getSeverityLevel (calculateWaterStressIndex 50 20 70 5)).level
        = SeverityLevel.moderate ∨
      (getSeverityLevel (calculateWaterStressIndex 50 20 70 5)).level
        = SeverityLevel.low) := by
  rw [stressIndex_scenario2]
  refine ⟨by norm_num, Or.inl ?_⟩
  unfold getSeverityLevel
  rw [if_neg (by norm_num : ¬ (33:ℝ) ≥ 80), if_neg (by norm_num : ¬ (33:ℝ) ≥ 60),
    if_neg (by norm_num : ¬ (33:ℝ) ≥ 40), if_pos (by norm_num : (33:ℝ) ≥ 20)]

/-- C8: the temperature-stress contribution `tempStress * 0.2` is
monotonically non-decreasing in temperature, and once `(T - 15) * 3` reaches
100 the contribution saturates at 20. -/
theorem tempStress_contribution_monotone (T1 T2 : ℝ) (h : T1 ≤ T2) :
    tempStress T1 * 0.2 ≤ tempStress T2 * 0.2 ∧
      (100 ≤ (T2 - 15) * 3 → tempStress T2 * 0.2 = 20) := by
  constructor
  · have hm : tempStress T1 ≤ tempStress T2 := by
      unfold tempStress
      exact max_le_max le_rfl (min_le_min le_rfl (by linarith))
    linarith
  · intro hsat
    have hsatur : tempStress T2 = 100 := by
      unfold tempStress
      rw [min_eq_left hsat, max_eq_right (by norm_num : (0:ℝ) ≤ 100)]
    rw [hsatur]
    norm_num

/-- Witness for C8 at temperatures 0 and 60. -/
theorem tempStress_contribution_monotone_witness :
    tempStress 0 * 0.2 ≤ tempStress 60 * 0.2 ∧
      (100 ≤ ((60:ℝ) - 15) * 3 → tempStress 60 * 0.2 = 20) :=
  tempStress_contribution_monotone 0 60 (by norm_num)

/-- C10: for every temperature strictly below -17.8 and every positive
precipitation, the PET is negative, so the aridity ratio is negative and
falls under the hyper-arid threshold 0.05: the aridity component contributes
its maximum of 40 however heavy the rainfall. -/
theorem aridityComponent_extreme_cold (t p : ℝ) (ht : t < -17.8) (hp : 0 < p) :
    potentialEvapotranspiration t < 0 ∧ aridityComponent p t = 40 := by
  have hs : 0 < Real.sqrt |25 - t| :=
    Real.sqrt_pos.mpr (by rw [abs_of_pos (by linarith : (0:ℝ) < 25 - t)]; linarith)
  have hpet : potentialEvapotranspiration t < 0 := by
    unfold potentialEvapotranspiration
    have h1 : 0.0023 * (t + 17.8) < 0 :=
      mul_neg_of_pos_of_neg (by norm_num) (by linarith)
    have h2 : 0.0023 * (t + 17.8) * Real.sqrt |25 - t| < 0 :=
      mul_neg_of_neg_of_pos h1 hs
    linarith
  refine ⟨hpet, ?_⟩
  have hai : p / potentialEvapotranspiration t < 0 := div_neg_of_pos_of_neg hp hpet
  simp only [aridityComponent]
  rw [if_neg (fun hc => absurd hc.2 (ne_of_lt hpet)), if_pos hp,
    if_pos (by linarith : p / potentialEvapotranspiration t < 0.05)]

/-- Witness for C10 at temperature -20 and precipitation 1000. -/
theorem aridityComponent_extreme_cold_witness :
    potentialEvapotranspiration (-20) < 0 ∧ aridityComponent 1000 (-20) = 40 :=
  aridityComponent_extreme_cold (-20) 1000 (by norm_num) (by norm_num)

end WaterMonitor
